import Mathlib

/-!
Shallow embedding of the core of `src/server/app.py` (ChatPoweredEcommerce).

The persistent store (SQLAlchemy models `UserAuth`, `Product`, `Order`,
`OrderDetail`) is modelled as lists of rows; the Flask server-side session is a
record of the three keys the handlers write (`user_id`, `username`,
`logged_in`).  Each HTTP handler of `app.py` is translated into a pure function
from request body and state to new state plus a response.  A Python `KeyError`
raised by `data["k"]` on a missing key is an unhandled exception: the handler
returns `Except.error (.keyError k)` and — since `db.session.commit()` is only
reached at the end of each handler — the store is returned unchanged
(the uncommitted transaction is rolled back at request teardown).

bcrypt (`generate_password_hash` / `check_password_hash`) is modelled
abstractly: a digest is the pair of a fresh salt (drawn from a counter in the
store) and the hashed plaintext; verification compares the plaintext component.
-/

namespace ChatEcommerce

/-- Model of a bcrypt digest: salt paired with the plaintext it hashes.
Two hashes of the same plaintext with different salts are different digests,
and verification recovers only a boolean, as with real bcrypt. -/
structure Digest where
  salt : Nat
  pw : String
deriving Repr, DecidableEq

/-- Model of `bcrypt.generate_password_hash` with an explicit fresh salt. -/
def generate_password_hash (salt : Nat) (pw : String) : Digest :=
  ⟨salt, pw⟩

/-- Model of `bcrypt.check_password_hash`. -/
def check_password_hash (d : Digest) (pw : String) : Bool :=
  d.pw == pw

/-- Row of the `UserAuth` table, with the columns `app.py` reads and writes. -/
structure UserAuthRow where
  id : Nat
  username : String
  email : String
  password_hash : Digest
deriving Repr, DecidableEq

/-- Row of the `Product` table.  `models.py` is not part of `src/`; the order
handler of `app.py` never reads any product column, so only the primary key is
modelled (existence of a product id in the catalog is all the claims need). -/
structure ProductRow where
  id : Nat
deriving Repr, DecidableEq

/-- Row of the `Order` table, as constructed by `OrderResource.post`. -/
structure OrderRow where
  id : Nat
  user_id : Nat
  shipping_info_id : Option Nat
deriving Repr, DecidableEq

/-- Row of the `OrderDetail` table, as constructed by `OrderResource.post`. -/
structure OrderDetailRow where
  order_id : Nat
  product_id : Nat
  quantity : Int
deriving Repr, DecidableEq

/-- The persisted store: the four tables the claims touch, plus the
autoincrement counters for primary keys and the salt source for bcrypt. -/
structure Store where
  users : List UserAuthRow
  products : List ProductRow
  orders : List OrderRow
  order_details : List OrderDetailRow
  nextUserId : Nat
  nextOrderId : Nat
  nextSalt : Nat
deriving Repr, DecidableEq

/-- The Flask server-side session: the three keys written by the handlers.
`session.clear()` resets all of them. -/
structure Session where
  user_id : Option Nat
  username : Option String
  logged_in : Bool
deriving Repr, DecidableEq

/-- Result of `session.clear()`: no keys set. -/
def Session.cleared : Session :=
  ⟨none, none, false⟩

/-- An unhandled Python exception escaping a handler. -/
inductive PyError where
  | keyError (key : String)
deriving Repr, DecidableEq

/-- A structured HTTP response: status code and message/error text. -/
abbrev Resp := Nat × String

/-- JSON body for `/user_auth` and `/login`: each field is `none` when the key
is absent from the request JSON. -/
structure AuthBody where
  username : Option String
  email : Option String
  password : Option String
  newPassword : Option String
deriving Repr, DecidableEq

/-- One element of `data["order_details"]` for `POST /orders`. -/
structure OrderItemBody where
  product_id : Option Nat
  quantity : Option Int
deriving Repr, DecidableEq

/-- JSON body for `POST /orders`.  `shipping_info_id` is read with
`data.get(...)`, so a missing key yields `none` rather than an error. -/
structure OrderBody where
  user_id : Option Nat
  shipping_info_id : Option Nat
  order_details : Option (List OrderItemBody)
deriving Repr, DecidableEq

/-- Number of `UserAuth` rows carrying a given username. -/
def Store.userCount (st : Store) (name : String) : Nat :=
  st.users.countP (fun u => u.username == name)

/-- The `UserAuth.query.filter_by(username=...).first()` lookup. -/
def Store.findUser (st : Store) (name : String) : Option UserAuthRow :=
  st.users.find? (fun u => u.username == name)

/-- The `UserAuth.query.get(user_id)` primary-key lookup. -/
def Store.findUserById (st : Store) (uid : Nat) : Option UserAuthRow :=
  st.users.find? (fun u => u.id == uid)

/-- Whether a product with the given id exists in the catalog. -/
def Store.hasProduct (st : Store) (pid : Nat) : Bool :=
  (st.products.find? (fun p => p.id == pid)).isSome

/-- The `OrderDetail` rows belonging to a given order. -/
def Store.detailsOf (st : Store) (oid : Nat) : List OrderDetailRow :=
  st.order_details.filter (fun d => d.order_id == oid)

/-- `UserAuthResource.post` (register, `app.py` lines 79-107).  Looks up the
username (KeyError if absent), answers 400 on a duplicate, then hashes the
password, inserts the row, commits, and logs the new user in. -/
def userAuthPost (body : AuthBody) (st : Store) (sess : Session) :
    Store × Session × Except PyError Resp :=
  match body.username with
  | none => (st, sess, .error (.keyError "username"))
  | some username =>
    match st.findUser username with
    | some _ => (st, sess, .ok (400, "Username already exists."))
    | none =>
      match body.password with
      | none => (st, sess, .error (.keyError "password"))
      | some password =>
        let hashed := generate_password_hash st.nextSalt password
        match body.email with
        | none => (st, sess, .error (.keyError "email"))
        | some email =>
          let new_user : UserAuthRow := ⟨st.nextUserId, username, email, hashed⟩
          ({ st with
              users := st.users ++ [new_user],
              nextUserId := st.nextUserId + 1,
              nextSalt := st.nextSalt + 1 },
            ⟨some new_user.id, some new_user.username, true⟩,
            .ok (201, "User created and logged in successfully"))

/-- `UserAuthResource.delete` (`app.py` lines 109-136).  Missing keys are
answered with a 400 before any lookup; then 404 for an unknown user, 401 for a
wrong password, and on success the row is deleted, committed, and
`session.clear()` is executed. -/
def userAuthDelete (body : AuthBody) (st : Store) (sess : Session) :
    Store × Session × Resp :=
  match body.username, body.password with
  | some username, some password =>
    match st.findUser username with
    | some user =>
      if check_password_hash user.password_hash password then
        ({ st with users := st.users.filter (fun u => u.id != user.id) },
          Session.cleared, (200, "User deleted successfully"))
      else
        (st, sess, (401, "Incorrect password"))
    | none => (st, sess, (404, "User not found"))
  | _, _ => (st, sess, (400, "Username and password are required"))

/-- `UserAuthResource.patch` (change password, `app.py` lines 138-152).
Looks up `data["username"]`; thanks to Python short-circuiting,
`data["password"]` is only read when a user was found and `data["newPassword"]`
only when the old password verified.  On success the digest is replaced and
committed; the session is never touched on this path. -/
def userAuthPatch (body : AuthBody) (st : Store) (sess : Session) :
    Store × Session × Except PyError Resp :=
  match body.username with
  | none => (st, sess, .error (.keyError "username"))
  | some username =>
    match st.findUser username with
    | none => (st, sess, .ok (401, "Invalid credentials"))
    | some user =>
      match body.password with
      | none => (st, sess, .error (.keyError "password"))
      | some password =>
        if check_password_hash user.password_hash password then
          match body.newPassword with
          | none => (st, sess, .error (.keyError "newPassword"))
          | some newPassword =>
            ({ st with
                users := st.users.map (fun u =>
                  if u.id == user.id then
                    { u with password_hash :=
                        generate_password_hash st.nextSalt newPassword }
                  else u),
                nextSalt := st.nextSalt + 1 },
              sess, .ok (200, "Password updated successfully"))
        else
          (st, sess, .ok (401, "Invalid credentials"))

/-- `UserLoginResource.post` (`app.py` lines 160-191).  Missing keys give a
400; an unknown username or failed verification gives a 401 with no session
mutation; success stores `user_id`, `username`, `logged_in = True` in the
session and returns the non-secret profile view `(id, username, email)`. -/
def userLoginPost (body : AuthBody) (st : Store) (sess : Session) :
    Store × Session × Resp × Option (Nat × String × String) :=
  match body.username, body.password with
  | some username, some password =>
    match st.findUser username with
    | some user =>
      if check_password_hash user.password_hash password then
        (st, ⟨some user.id, some user.username, true⟩,
          (200, "Login successful"), some (user.id, user.username, user.email))
      else
        (st, sess, (401, "Invalid username or password"), none)
    | none => (st, sess, (401, "Invalid username or password"), none)
  | _, _ => (st, sess, (400, "Username and password are required"), none)

/-- `UserLogoutResource.post` (`app.py` lines 194-203): unconditionally
`session.clear()` and a 200. -/
def userLogoutPost (st : Store) (_sess : Session) : Store × Session × Resp :=
  (st, Session.cleared, (200, "Logout successful"))

/-- `SessionCheckResource.get` (`app.py` lines 214-241): reports whether the
session is authenticated.  `if user_id:` is Python truthiness, so a stored id
of 0 counts as absent.  Returns the `authenticated` flag and the status code. -/
def sessionCheckGet (st : Store) (sess : Session) : Bool × Nat :=
  match sess.user_id with
  | some uid =>
    if uid == 0 then (false, 200)
    else
      match st.findUserById uid with
      | some _ => (true, 200)
      | none => (false, 404)
  | none => (false, 200)

/-- The loop body of `OrderResource.post`: turns the `order_details` payload
into `OrderDetail` rows referencing the flushed order id, failing with a
`KeyError` when an element lacks `product_id` or `quantity`.  No product
lookup and no quantity check occur anywhere in this loop. -/
def buildDetails (oid : Nat) : List OrderItemBody → Except PyError (List OrderDetailRow)
  | [] => .ok []
  | d :: ds =>
    match d.product_id with
    | none => .error (.keyError "product_id")
    | some pid =>
      match d.quantity with
      | none => .error (.keyError "quantity")
      | some q =>
        match buildDetails oid ds with
        | .error e => .error e
        | .ok rest => .ok (⟨oid, pid, q⟩ :: rest)

/-- `OrderResource.post` (`app.py` lines 443-460).  Builds the order header,
flushes to obtain its id, builds every detail row, then commits everything in
one transaction; an exception before the commit leaves the store unchanged
(rollback at teardown).  On success returns 201 and the new header. -/
def orderPost (body : OrderBody) (st : Store) :
    Store × Except PyError (Nat × OrderRow) :=
  match body.user_id with
  | none => (st, .error (.keyError "user_id"))
  | some uid =>
    let new_order : OrderRow := ⟨st.nextOrderId, uid, body.shipping_info_id⟩
    match body.order_details with
    | none => (st, .error (.keyError "order_details"))
    | some details =>
      match buildDetails new_order.id details with
      | .error e => (st, .error e)
      | .ok rows =>
        ({ st with
            orders := st.orders ++ [new_order],
            order_details := st.order_details ++ rows,
            nextOrderId := st.nextOrderId + 1 },
          .ok (201, new_order))

/-! ## Concrete fixtures used by counterexamples and witnesses -/

/-- The account "alice" registered with password "secret1" (salt 0). -/
def alice : UserAuthRow :=
  ⟨1, "alice", "alice@example.com", generate_password_hash 0 "secret1"⟩

/-- A store holding the single account `alice` and the single product 1. -/
def st1 : Store :=
  ⟨[alice], [⟨1⟩], [], [], 2, 1, 1⟩

/-- The empty store. -/
def st0 : Store :=
  ⟨[], [], [], [], 1, 1, 0⟩

/-! ## Helper lemmas -/

/-- A username with a positive row count is found by `filter_by(...).first()`. -/
lemma findUser_isSome_of_count_pos (st : Store) (name : String)
    (h : 0 < st.userCount name) : (st.findUser name).isSome := by
  rw [Store.findUser, List.find?_isSome]
  obtain ⟨u, hu, hp⟩ := List.countP_pos_iff.mp h
  exact ⟨u, hu, hp⟩

/-- A username with row count zero is not found by `filter_by(...).first()`. -/
lemma findUser_eq_none_of_count_zero (st : Store) (name : String)
    (h : st.userCount name = 0) : st.findUser name = none := by
  rw [Store.findUser, List.find?_eq_none]
  exact List.countP_eq_zero.mp h

/-- With every `product_id` and `quantity` key present, the detail-building
loop succeeds and yields one row per payload element, in order. -/
lemma buildDetails_ok (oid : Nat) (items : List OrderItemBody)
    (h : ∀ d ∈ items, d.product_id.isSome ∧ d.quantity.isSome) :
    buildDetails oid items =
      .ok (items.map fun d => ⟨oid, d.product_id.getD 0, d.quantity.getD 0⟩) := by
  induction items with
  | nil => rfl
  | cons d ds ih =>
    obtain ⟨h1, h2⟩ := h d (List.mem_cons_self d ds)
    obtain ⟨pid, hp⟩ := Option.isSome_iff_exists.mp h1
    obtain ⟨q, hq⟩ := Option.isSome_iff_exists.mp h2
    have ihds := ih (fun x hx => h x (List.mem_cons_of_mem d hx))
    simp [buildDetails, hp, hq, ihds]

/-! ## Claim theorems -/

/-- C1 counterexample: in a catalog without product 99999, the order request
`{user_id: 1, order_details: [{product_id: 99999, quantity: 2}]}` does not
fail with `ProductNotFound`: it succeeds with 201 and afterwards one Order row
and one OrderDetail row referencing the nonexistent product are persisted. -/
theorem C1_counterexample :
    st1.hasProduct 99999 = false ∧
    (orderPost ⟨some 1, none, some [⟨some 99999, some 2⟩]⟩ st1).2 =
      .ok (201, ⟨1, 1, none⟩) ∧
    (orderPost ⟨some 1, none, some [⟨some 99999, some 2⟩]⟩ st1).1.orders =
      [⟨1, 1, none⟩] ∧
    (orderPost ⟨some 1, none, some [⟨some 99999, some 2⟩]⟩ st1).1.order_details =
      [⟨1, 99999, 2⟩] := by
  refine ⟨rfl, rfl, rfl, rfl⟩

/-- C1 (amended): `OrderResource.post` performs no product-existence
validation at all.  For any store — regardless of which products its catalog
holds — and any line-item list whose elements carry both keys, the request
succeeds with 201 and persists the Order header plus one OrderDetail row per
line item, product ids taken verbatim from the payload. -/
theorem C1_no_product_validation (st : Store) (uid : Nat) (sid : Option Nat)
    (items : List OrderItemBody)
    (h : ∀ d ∈ items, d.product_id.isSome ∧ d.quantity.isSome) :
    orderPost ⟨some uid, sid, some items⟩ st =
      ({ st with
          orders := st.orders ++ [⟨st.nextOrderId, uid, sid⟩],
          order_details := st.order_details ++
            items.map (fun d => ⟨st.nextOrderId, d.product_id.getD 0, d.quantity.getD 0⟩),
          nextOrderId := st.nextOrderId + 1 },
        .ok (201, ⟨st.nextOrderId, uid, sid⟩)) := by
  simp [orderPost, buildDetails_ok st.nextOrderId items h]

/-- Witness for C1: the amended theorem applied to the concrete store `st1`
and the unresolvable product id 99999. -/
theorem C1_witness :
    orderPost ⟨some 1, none, some [⟨some 99999, some 2⟩]⟩ st1 =
      ({ st1 with
          orders := st1.orders ++ [⟨st1.nextOrderId, 1, none⟩],
          order_details := st1.order_details ++ [⟨st1.nextOrderId, 99999, 2⟩],
          nextOrderId := st1.nextOrderId + 1 },
        .ok (201, ⟨st1.nextOrderId, 1, none⟩)) :=
  C1_no_product_validation st1 1 none [⟨some 99999, some 2⟩] (by decide)

/-- C2 counterexample: for the existing product 1, the order request with
`quantity: 0` does not fail with `InvalidLineItem`: it succeeds with 201 and
persists an Order row and an OrderDetail row carrying quantity 0. -/
theorem C2_counterexample :
    st1.hasProduct 1 = true ∧
    (orderPost ⟨some 1, none, some [⟨some 1, some 0⟩]⟩ st1).2 =
      .ok (201, ⟨1, 1, none⟩) ∧
    (orderPost ⟨some 1, none, some [⟨some 1, some 0⟩]⟩ st1).1.orders =
      [⟨1, 1, none⟩] ∧
    (orderPost ⟨some 1, none, some [⟨some 1, some 0⟩]⟩ st1).1.order_details =
      [⟨1, 1, 0⟩] := by
  refine ⟨rfl, rfl, rfl, rfl⟩

/-- C2 (amended): `OrderResource.post` performs no quantity validation.  Even
for a quantity below 1 (zero or negative), the request succeeds with 201 and
persists the Order row and the OrderDetail row with that very quantity. -/
theorem C2_no_quantity_validation (st : Store) (uid pid : Nat)
    (sid : Option Nat) (q : Int) (_h : q < 1) :
    orderPost ⟨some uid, sid, some [⟨some pid, some q⟩]⟩ st =
      ({ st with
          orders := st.orders ++ [⟨st.nextOrderId, uid, sid⟩],
          order_details := st.order_details ++ [⟨st.nextOrderId, pid, q⟩],
          nextOrderId := st.nextOrderId + 1 },
        .ok (201, ⟨st.nextOrderId, uid, sid⟩)) := by
  rfl

/-- Witness for C2: quantity 0 on the concrete store `st1`. -/
theorem C2_witness :
    orderPost ⟨some 1, none, some [⟨some 1, some 0⟩]⟩ st1 =
      ({ st1 with
          orders := st1.orders ++ [⟨st1.nextOrderId, 1, none⟩],
          order_details := st1.order_details ++ [⟨st1.nextOrderId, 1, 0⟩],
          nextOrderId := st1.nextOrderId + 1 },
        .ok (201, ⟨st1.nextOrderId, 1, none⟩)) :=
  C2_no_quantity_validation st1 1 1 none 0 (by decide)

/-- C3 counterexample: the invariant "no Order with zero persisted OrderDetail
rows exists after a completed creation" fails: the request
`{user_id: 1, order_details: []}` completes with 201 and leaves an Order row
whose set of OrderDetail rows is empty. -/
theorem C3_counterexample :
    (orderPost ⟨some 1, none, some []⟩ st1).2 = .ok (201, ⟨1, 1, none⟩) ∧
    (orderPost ⟨some 1, none, some []⟩ st1).1.orders = [⟨1, 1, none⟩] ∧
    (orderPost ⟨some 1, none, some []⟩ st1).1.detailsOf 1 = [] := by
  refine ⟨rfl, rfl, rfl⟩

/-- C3 (amended): order creation is a single all-or-nothing unit — any failure
before the final commit (here: a missing key in the payload, detected after
the header insert into the open transaction) leaves no Order and no
OrderDetail row behind — and a completed creation persists the header together
with exactly one OrderDetail row per requested line item.  Consequently an
Order with zero OrderDetail rows does exist after a completed creation exactly
when the request's line-item list was empty. -/
theorem C3_all_or_nothing (body : OrderBody) (st : Store) :
    (∀ e, (orderPost body st).2 = .error e → (orderPost body st).1 = st) ∧
    (∀ uid sid items, body = ⟨some uid, sid, some items⟩ →
      (∀ d ∈ items, d.product_id.isSome ∧ d.quantity.isSome) →
      st.detailsOf st.nextOrderId = [] →
      (orderPost body st).2 = .ok (201, ⟨st.nextOrderId, uid, sid⟩) ∧
      (orderPost body st).1.orders = st.orders ++ [⟨st.nextOrderId, uid, sid⟩] ∧
      ((orderPost body st).1.detailsOf st.nextOrderId).length = items.length) := by
  constructor
  · intro e he
    obtain ⟨u, s, d⟩ := body
    cases u with
    | none => rfl
    | some uid =>
      cases d with
      | none => rfl
      | some items =>
        simp only [orderPost] at he ⊢
        cases hb : buildDetails st.nextOrderId items with
        | error e2 => simp [hb]
        | ok rows => simp [hb] at he
  · intro uid sid items hbody hkeys hfresh
    subst hbody
    have hb := buildDetails_ok st.nextOrderId items hkeys
    refine ⟨?_, ?_, ?_⟩
    · simp [orderPost, hb]
    · simp [orderPost, hb]
    · rw [Store.detailsOf] at hfresh
      simp [orderPost, hb, Store.detailsOf, List.filter_append, hfresh,
        List.filter_map, Function.comp_def]

/-- Witness for C3: both conjuncts applied to the concrete store `st1` — the
rollback branch on a payload whose line item lacks its quantity key, and the
completed-creation branch on a one-item payload. -/
theorem C3_witness :
    ((orderPost ⟨some 1, none, some [⟨some 1, none⟩]⟩ st1).2 =
        .error (.keyError "quantity") ∧
      (orderPost ⟨some 1, none, some [⟨some 1, none⟩]⟩ st1).1 = st1) ∧
    ((orderPost ⟨some 1, none, some [⟨some 1, some 2⟩]⟩ st1).2 =
        .ok (201, ⟨1, 1, none⟩) ∧
      ((orderPost ⟨some 1, none, some [⟨some 1, some 2⟩]⟩ st1).1.detailsOf 1).length
        = 1) :=
  ⟨⟨rfl, (C3_all_or_nothing ⟨some 1, none, some [⟨some 1, none⟩]⟩ st1).1
      (.keyError "quantity") rfl⟩,
    ⟨((C3_all_or_nothing ⟨some 1, none, some [⟨some 1, some 2⟩]⟩ st1).2
        1 none [⟨some 1, some 2⟩] rfl (by decide) rfl).1,
      ((C3_all_or_nothing ⟨some 1, none, some [⟨some 1, some 2⟩]⟩ st1).2
        1 none [⟨some 1, some 2⟩] rfl (by decide) rfl).2.2⟩⟩

/-- C4: registering an already-taken username fails with the duplicate-
username error (the check happens before any insert, so the store — and with
it the number of rows carrying that username — is unchanged), while the first
registration of a fresh username succeeds with 201 and leaves exactly one
Account row with that username. -/
theorem C4_register_duplicate (body : AuthBody) (st : Store) (sess : Session)
    (name : String) (hu : body.username = some name) :
    (0 < st.userCount name →
      userAuthPost body st sess = (st, sess, .ok (400, "Username already exists.")) ∧
      ((userAuthPost body st sess).1).userCount name = st.userCount name) ∧
    (st.userCount name = 0 →
      ∀ pw em, body.password = some pw → body.email = some em →
        userAuthPost body st sess =
          ({ st with
              users := st.users ++
                [⟨st.nextUserId, name, em, generate_password_hash st.nextSalt pw⟩],
              nextUserId := st.nextUserId + 1,
              nextSalt := st.nextSalt + 1 },
            ⟨some st.nextUserId, some name, true⟩,
            .ok (201, "User created and logged in successfully")) ∧
        ((userAuthPost body st sess).1).userCount name = 1) := by
  constructor
  · intro hpos
    obtain ⟨u, hu'⟩ :=
      Option.isSome_iff_exists.mp (findUser_isSome_of_count_pos st name hpos)
    have : userAuthPost body st sess = (st, sess, .ok (400, "Username already exists.")) := by
      simp [userAuthPost, hu, hu']
    exact ⟨this, by rw [this]⟩
  · intro hzero pw em hpw hem
    have hnone := findUser_eq_none_of_count_zero st name hzero
    have heq : userAuthPost body st sess =
        ({ st with
            users := st.users ++
              [⟨st.nextUserId, name, em, generate_password_hash st.nextSalt pw⟩],
            nextUserId := st.nextUserId + 1,
            nextSalt := st.nextSalt + 1 },
          ⟨some st.nextUserId, some name, true⟩,
          .ok (201, "User created and logged in successfully")) := by
      simp [userAuthPost, hu, hnone, hpw, hem]
    refine ⟨heq, ?_⟩
    rw [heq]
    rw [Store.userCount] at hzero ⊢
    simp [List.countP_append, List.countP_cons, hzero]

/-- Witness for C4: on the store holding only "alice", re-registering "alice"
answers 400 with the store unchanged, and registering the fresh "bob"
answers 201 leaving exactly one "bob" row. -/
theorem C4_witness :
    (userAuthPost ⟨some "alice", some "a@x.com", some "hunter22", none⟩ st1
        Session.cleared =
      (st1, Session.cleared, .ok (400, "Username already exists.")) ∧
      ((userAuthPost ⟨some "alice", some "a@x.com", some "hunter22", none⟩ st1
        Session.cleared).1).userCount "alice" = st1.userCount "alice") ∧
    ((userAuthPost ⟨some "bob", some "b@x.com", some "hunter22", none⟩ st1
        Session.cleared).1).userCount "bob" = 1 :=
  ⟨(C4_register_duplicate ⟨some "alice", some "a@x.com", some "hunter22", none⟩
      st1 Session.cleared "alice" rfl).1 (by decide),
    ((C4_register_duplicate ⟨some "bob", some "b@x.com", some "hunter22", none⟩
      st1 Session.cleared "bob" rfl).2 (by decide) "hunter22" "b@x.com" rfl rfl).2⟩

/-- C5: account deletion answers 404 when the username does not exist and 401
when the stored digest rejects the supplied password — both leaving store and
session untouched — and on success removes the Account row, clears the
session in the same handler, and any session still referencing the deleted
account id is subsequently reported unauthenticated by the session check. -/
theorem C5_delete_account (body : AuthBody) (st : Store) (sess : Session)
    (name pw : String) (hu : body.username = some name)
    (hp : body.password = some pw) :
    (st.findUser name = none →
      userAuthDelete body st sess = (st, sess, (404, "User not found"))) ∧
    (∀ user, st.findUser name = some user →
      (check_password_hash user.password_hash pw = false →
        userAuthDelete body st sess = (st, sess, (401, "Incorrect password"))) ∧
      (check_password_hash user.password_hash pw = true →
        userAuthDelete body st sess =
          ({ st with users := st.users.filter (fun u => u.id != user.id) },
            Session.cleared, (200, "User deleted successfully")) ∧
        ((userAuthDelete body st sess).1).findUserById user.id = none ∧
        sessionCheckGet (userAuthDelete body st sess).1
          (userAuthDelete body st sess).2.1 = (false, 200) ∧
        (∀ s : Session, s.user_id = some user.id → user.id ≠ 0 →
          sessionCheckGet (userAuthDelete body st sess).1 s = (false, 404)))) := by
  refine ⟨fun hnone => by simp [userAuthDelete, hu, hp, hnone], ?_⟩
  intro user hfind
  refine ⟨fun hbad => by simp [userAuthDelete, hu, hp, hfind, hbad], ?_⟩
  intro hok
  have heq : userAuthDelete body st sess =
      ({ st with users := st.users.filter (fun u => u.id != user.id) },
        Session.cleared, (200, "User deleted successfully")) := by
    simp [userAuthDelete, hu, hp, hfind, hok]
  have hfid : Store.findUserById
      { st with users := st.users.filter (fun u => u.id != user.id) } user.id
      = none := by
    rw [Store.findUserById, List.find?_eq_none]
    intro x hx
    have hb := (List.mem_filter.mp hx).2
    simpa using hb
  refine ⟨heq, ?_, ?_, ?_⟩
  · rw [heq]
    exact hfid
  · rw [heq]
    rfl
  · intro s hs hzero
    rw [heq]
    simp [sessionCheckGet, hs, hzero, hfid]

/-- Witness for C5: deleting "alice" with her correct password on the concrete
store removes the row, clears the session, and a stale session still carrying
her id is reported unauthenticated (404) afterwards. -/
theorem C5_witness :
    userAuthDelete ⟨some "alice", none, some "secret1", none⟩ st1
        Session.cleared =
      ({ st1 with users := st1.users.filter (fun u => u.id != alice.id) },
        Session.cleared, (200, "User deleted successfully")) ∧
    ((userAuthDelete ⟨some "alice", none, some "secret1", none⟩ st1
        Session.cleared).1).findUserById alice.id = none ∧
    sessionCheckGet
      (userAuthDelete ⟨some "alice", none, some "secret1", none⟩ st1
        Session.cleared).1
      (userAuthDelete ⟨some "alice", none, some "secret1", none⟩ st1
        Session.cleared).2.1 = (false, 200) ∧
    sessionCheckGet
      (userAuthDelete ⟨some "alice", none, some "secret1", none⟩ st1
        Session.cleared).1 ⟨some 1, some "alice", true⟩ = (false, 404) := by
  have h := ((C5_delete_account ⟨some "alice", none, some "secret1", none⟩ st1
    Session.cleared "alice" "secret1" rfl rfl).2 alice rfl).2 rfl
  exact ⟨h.1, h.2.1, h.2.2.1, h.2.2.2 ⟨some 1, some "alice", true⟩ rfl (by decide)⟩

/-- C6: login with an unknown username or a non-verifying password answers 401
and leaves the store, the prior session, and the response view untouched;
successful login stores `user_id`, `username`, `logged_in = true` in the
session and returns the non-secret profile view (id, username, email). -/
theorem C6_login (body : AuthBody) (st : Store) (sess : Session)
    (name pw : String) (hu : body.username = some name)
    (hp : body.password = some pw) :
    (st.findUser name = none →
      userLoginPost body st sess =
        (st, sess, (401, "Invalid username or password"), none)) ∧
    (∀ user, st.findUser name = some user →
      (check_password_hash user.password_hash pw = false →
        userLoginPost body st sess =
          (st, sess, (401, "Invalid username or password"), none)) ∧
      (check_password_hash user.password_hash pw = true →
        userLoginPost body st sess =
          (st, ⟨some user.id, some user.username, true⟩,
            (200, "Login successful"),
            some (user.id, user.username, user.email)))) := by
  refine ⟨fun hnone => by simp [userLoginPost, hu, hp, hnone], ?_⟩
  intro user hfind
  exact ⟨fun hbad => by simp [userLoginPost, hu, hp, hfind, hbad],
    fun hok => by simp [userLoginPost, hu, hp, hfind, hok]⟩

/-- Witness for C6: on the concrete store, `login("alice","wrong")` answers
401 leaving the prior session exactly as it was, and `login("alice","secret1")`
succeeds with the authenticated session and the profile view of alice. -/
theorem C6_witness :
    userLoginPost ⟨some "alice", none, some "wrong", none⟩ st1
        ⟨some 7, some "prior", true⟩ =
      (st1, ⟨some 7, some "prior", true⟩,
        (401, "Invalid username or password"), none) ∧
    userLoginPost ⟨some "alice", none, some "secret1", none⟩ st1
        Session.cleared =
      (st1, ⟨some alice.id, some alice.username, true⟩,
        (200, "Login successful"),
        some (alice.id, alice.username, alice.email)) :=
  ⟨((C6_login ⟨some "alice", none, some "wrong", none⟩ st1
      ⟨some 7, some "prior", true⟩ "alice" "wrong" rfl rfl).2 alice rfl).1 rfl,
    ((C6_login ⟨some "alice", none, some "secret1", none⟩ st1
      Session.cleared "alice" "secret1" rfl rfl).2 alice rfl).2 rfl⟩

/-- C7: password change replaces the stored digest with the hash of the new
password exactly when the old password verifies, touching nothing else — the
session is returned unchanged, so no session is invalidated — and answers 401
with the store untouched (digest unchanged) when the account is missing or
the old password does not verify. -/
theorem C7_change_password (body : AuthBody) (st : Store) (sess : Session)
    (name old : String) (hu : body.username = some name)
    (hp : body.password = some old) :
    (st.findUser name = none →
      userAuthPatch body st sess = (st, sess, .ok (401, "Invalid credentials"))) ∧
    (∀ user, st.findUser name = some user →
      (check_password_hash user.password_hash old = false →
        userAuthPatch body st sess =
          (st, sess, .ok (401, "Invalid credentials"))) ∧
      (check_password_hash user.password_hash old = true →
        ∀ newPw, body.newPassword = some newPw →
          userAuthPatch body st sess =
            ({ st with
                users := st.users.map (fun u =>
                  if u.id == user.id then
                    { u with password_hash :=
                        generate_password_hash st.nextSalt newPw }
                  else u),
                nextSalt := st.nextSalt + 1 },
              sess, .ok (200, "Password updated successfully")))) := by
  refine ⟨fun hnone => by simp [userAuthPatch, hu, hnone], ?_⟩
  intro user hfind
  refine ⟨fun hbad => by simp [userAuthPatch, hu, hp, hfind, hbad], ?_⟩
  intro hok newPw hnew
  simp [userAuthPatch, hu, hp, hfind, hok, hnew]

/-- Witness for C7: on the concrete store, changing alice's password with the
correct old password rewrites her digest to the hash of the new password and
returns the session unchanged, and a wrong old password answers 401 with the
store untouched. -/
theorem C7_witness :
    userAuthPatch ⟨some "alice", none, some "secret1", some "newpass1"⟩ st1
        ⟨some 1, some "alice", true⟩ =
      ({ st1 with
          users := st1.users.map (fun u =>
            if u.id == alice.id then
              { u with password_hash :=
                  generate_password_hash st1.nextSalt "newpass1" }
            else u),
          nextSalt := st1.nextSalt + 1 },
        ⟨some 1, some "alice", true⟩, .ok (200, "Password updated successfully")) ∧
    userAuthPatch ⟨some "alice", none, some "wrong", some "newpass1"⟩ st1
        ⟨some 1, some "alice", true⟩ =
      (st1, ⟨some 1, some "alice", true⟩, .ok (401, "Invalid credentials")) :=
  ⟨((C7_change_password ⟨some "alice", none, some "secret1", some "newpass1"⟩
      st1 ⟨some 1, some "alice", true⟩ "alice" "secret1" rfl rfl).2 alice
      rfl).2 rfl "newpass1" rfl,
    ((C7_change_password ⟨some "alice", none, some "wrong", some "newpass1"⟩
      st1 ⟨some 1, some "alice", true⟩ "alice" "wrong" rfl rfl).2 alice
      rfl).1 rfl⟩

/-- C8: logout is idempotent — from every store and every session state
(including the cleared one) it succeeds with 200, unconditionally clears the
session, and a second consecutive logout returns the very same success result
with `logged_in = false`. -/
theorem C8_logout_idempotent (st : Store) (sess : Session) :
    userLogoutPost st sess = (st, Session.cleared, (200, "Logout successful")) ∧
    (userLogoutPost st sess).2.1.logged_in = false ∧
    userLogoutPost (userLogoutPost st sess).1 (userLogoutPost st sess).2.1 =
      userLogoutPost st sess ∧
    (userLogoutPost (userLogoutPost st sess).1
      (userLogoutPost st sess).2.1).2.1.logged_in = false :=
  ⟨rfl, rfl, rfl, rfl⟩

/-- C9: registration checks uniqueness of the username only — two consecutive
registrations with distinct fresh usernames but one shared email address both
answer 201, and afterwards the number of Account rows carrying that email has
grown by two (no email-uniqueness or email-format check exists). -/
theorem C9_email_not_unique (st : Store) (sess : Session)
    (u1 u2 e p1 p2 : String) (hne : u1 ≠ u2)
    (h1 : st.userCount u1 = 0) (h2 : st.userCount u2 = 0) :
    (userAuthPost ⟨some u1, some e, some p1, none⟩ st sess).2.2 =
      .ok (201, "User created and logged in successfully") ∧
    (userAuthPost ⟨some u2, some e, some p2, none⟩
        (userAuthPost ⟨some u1, some e, some p1, none⟩ st sess).1
        (userAuthPost ⟨some u1, some e, some p1, none⟩ st sess).2.1).2.2 =
      .ok (201, "User created and logged in successfully") ∧
    ((userAuthPost ⟨some u2, some e, some p2, none⟩
        (userAuthPost ⟨some u1, some e, some p1, none⟩ st sess).1
        (userAuthPost ⟨some u1, some e, some p1, none⟩ st sess).2.1).1).users.countP
        (fun u => u.email == e) =
      st.users.countP (fun u => u.email == e) + 2 := by
  have hn1 := findUser_eq_none_of_count_zero st u1 h1
  have heq1 : userAuthPost ⟨some u1, some e, some p1, none⟩ st sess =
      ({ st with
          users := st.users ++
            [⟨st.nextUserId, u1, e, generate_password_hash st.nextSalt p1⟩],
          nextUserId := st.nextUserId + 1,
          nextSalt := st.nextSalt + 1 },
        ⟨some st.nextUserId, some u1, true⟩,
        .ok (201, "User created and logged in successfully")) := by
    simp [userAuthPost, hn1]
  rw [Store.userCount] at h2
  have hn2 : Store.findUser
      { st with
        users := st.users ++
          [⟨st.nextUserId, u1, e, generate_password_hash st.nextSalt p1⟩],
        nextUserId := st.nextUserId + 1,
        nextSalt := st.nextSalt + 1 } u2 = none := by
    rw [Store.findUser, List.find?_eq_none]
    intro x hx
    rcases List.mem_append.mp hx with hmem | hr
    · exact List.countP_eq_zero.mp h2 x hmem
    · have hx1 : x = ⟨st.nextUserId, u1, e, generate_password_hash st.nextSalt p1⟩ := by
        simpa using hr
      subst hx1
      simp only [beq_iff_eq]
      exact hne
  have heq2 : userAuthPost ⟨some u2, some e, some p2, none⟩
      { st with
        users := st.users ++
          [⟨st.nextUserId, u1, e, generate_password_hash st.nextSalt p1⟩],
        nextUserId := st.nextUserId + 1,
        nextSalt := st.nextSalt + 1 }
      ⟨some st.nextUserId, some u1, true⟩ =
      ({ st with
          users := (st.users ++
            [⟨st.nextUserId, u1, e, generate_password_hash st.nextSalt p1⟩]) ++
            [⟨st.nextUserId + 1, u2, e, generate_password_hash (st.nextSalt + 1) p2⟩],
          nextUserId := st.nextUserId + 1 + 1,
          nextSalt := st.nextSalt + 1 + 1 },
        ⟨some (st.nextUserId + 1), some u2, true⟩,
        .ok (201, "User created and logged in successfully")) := by
    simp [userAuthPost, hn2]
  refine ⟨by simp [heq1], ?_, ?_⟩
  · simp only [heq1]
    simp only [heq2]
  · simp only [heq1]
    simp only [heq2]
    simp [List.countP_append, List.countP_cons]

/-- Witness for C9: on the empty store, registering "alice" and then "bob"
with the shared email succeeds twice and leaves two rows with that email. -/
theorem C9_witness :
    (userAuthPost ⟨some "alice", some "shared@x.com", some "pw1234", none⟩ st0
        Session.cleared).2.2 =
      .ok (201, "User created and logged in successfully") ∧
    (userAuthPost ⟨some "bob", some "shared@x.com", some "pw5678", none⟩
        (userAuthPost ⟨some "alice", some "shared@x.com", some "pw1234", none⟩
          st0 Session.cleared).1
        (userAuthPost ⟨some "alice", some "shared@x.com", some "pw1234", none⟩
          st0 Session.cleared).2.1).2.2 =
      .ok (201, "User created and logged in successfully") ∧
    ((userAuthPost ⟨some "bob", some "shared@x.com", some "pw5678", none⟩
        (userAuthPost ⟨some "alice", some "shared@x.com", some "pw1234", none⟩
          st0 Session.cleared).1
        (userAuthPost ⟨some "alice", some "shared@x.com", some "pw1234", none⟩
          st0 Session.cleared).2.1).1).users.countP
        (fun u => u.email == "shared@x.com") =
      st0.users.countP (fun u => u.email == "shared@x.com") + 2 :=
  C9_email_not_unique st0 Session.cleared "alice" "bob" "shared@x.com"
    "pw1234" "pw5678" (by decide) rfl rfl

/-- C10 counterexample: a registration request lacking the password key does
not always raise a lookup error — when the supplied username is already taken,
the duplicate check answers first with the structured 400 response (and no
lookup error is raised), refuting the universally quantified claim. -/
theorem C10_counterexample :
    userAuthPost ⟨some "alice", some "other@x.com", none, none⟩ st1
        Session.cleared =
      (st1, Session.cleared, .ok (400, "Username already exists.")) := by
  rfl

/-- C10 (amended): a registration request lacking `username` raises the
unhandled KeyError for "username"; one whose fresh username is present but
which lacks `password` or `email` raises the corresponding KeyError — in all
these cases no Account row is created (the store is returned unchanged) and no
structured validation response is produced; the one exception is a request
whose supplied username is already taken, which receives the structured 400
duplicate response before any other key is read (and likewise creates no
Account row). -/
theorem C10_missing_field_key_error (body : AuthBody) (st : Store)
    (sess : Session) :
    (body.username = none →
      userAuthPost body st sess = (st, sess, .error (.keyError "username"))) ∧
    (∀ name, body.username = some name → st.findUser name = none →
      (body.password = none →
        userAuthPost body st sess = (st, sess, .error (.keyError "password"))) ∧
      (∀ pw, body.password = some pw → body.email = none →
        userAuthPost body st sess = (st, sess, .error (.keyError "email")))) ∧
    (∀ name, body.username = some name → (st.findUser name).isSome →
      userAuthPost body st sess =
        (st, sess, .ok (400, "Username already exists."))) := by
  refine ⟨fun hnone => by simp [userAuthPost, hnone], ?_, ?_⟩
  · intro name hname hfresh
    refine ⟨fun hpw => by simp [userAuthPost, hname, hfresh, hpw], ?_⟩
    intro pw hpw hem
    simp [userAuthPost, hname, hfresh, hpw, hem]
  · intro name hname hdup
    obtain ⟨u, hu⟩ := Option.isSome_iff_exists.mp hdup
    simp [userAuthPost, hname, hu]

/-- Witness for C10: concrete requests against the store holding "alice" —
a body with no username at all, a fresh username without a password, a fresh
username and password without an email, and the taken username without a
password. -/
theorem C10_witness :
    userAuthPost ⟨none, some "b@x.com", some "pw1234", none⟩ st1
        Session.cleared =
      (st1, Session.cleared, .error (.keyError "username")) ∧
    userAuthPost ⟨some "bob", some "b@x.com", none, none⟩ st1
        Session.cleared =
      (st1, Session.cleared, .error (.keyError "password")) ∧
    userAuthPost ⟨some "bob", none, some "pw1234", none⟩ st1
        Session.cleared =
      (st1, Session.cleared, .error (.keyError "email")) ∧
    userAuthPost ⟨some "alice", some "b@x.com", none, none⟩ st1
        Session.cleared =
      (st1, Session.cleared, .ok (400, "Username already exists.")) :=
  ⟨(C10_missing_field_key_error ⟨none, some "b@x.com", some "pw1234", none⟩
      st1 Session.cleared).1 rfl,
    ((C10_missing_field_key_error ⟨some "bob", some "b@x.com", none, none⟩
      st1 Session.cleared).2.1 "bob" rfl rfl).1 rfl,
    ((C10_missing_field_key_error ⟨some "bob", none, some "pw1234", none⟩
      st1 Session.cleared).2.1 "bob" rfl rfl).2 "pw1234" rfl rfl,
    (C10_missing_field_key_error ⟨some "alice", some "b@x.com", none, none⟩
      st1 Session.cleared).2.2 "alice" rfl rfl⟩

end ChatEcommerce
